import Mathlib

/-!
# Verification of the Booyah entity/composition engine (`src/app/entity.ts`)

Shallow embedding of the lifecycle/composition core: the base `Entity`
contract, the listener registry, and the composite policies
(`ParallelEntity`, `DeflatingCompositeEntity`, `EntitySequence`,
`StateMachine` + `makeTransitionTable`, `FunctionalEntity`, `Alternative`,
`SwitchingEntity`).

Conventions of the embedding:
* JavaScript `null`/`undefined` are `Option.none`; a nullable object field
  is an `Option`.
* A transition value (`requestedTransition`) can be a boolean, a string, or
  a `{ name, params }` object; JS truthiness is made explicit
  (`TransitionValue.truthy`).
* Opaque `params` payloads are modelled as `Option String` (`none` is
  JS `undefined`).
* `console.error`/`console.debug`/`console.trace` calls are pure logging
  with no effect on state, so they are dropped; a thrown `Error` is an
  `Except.error` carrying the message.
* Child entities handed to a composite are arbitrary objects implementing
  the base `Entity` contract.  They are modelled by `SimEntity`, which
  follows the base-class bookkeeping of `Entity.setup` / `Entity.update` /
  `Entity.teardown` (entity.ts lines 82-119) with a scripted `_update`
  extension point, and counts its `setup`/`teardown` calls so that the
  lifecycle traces claimed by the spec are observable.
-/

/-- Opaque transition / state parameter payload (JS `any`); `none` is
`undefined`. -/
abbrev JsParams := Option String

/-- A JS value used as a transition: a boolean, a string, or an object
`{ name, params }` (the `Transition` interface). -/
inductive TransitionValue where
  | bool (b : Bool)
  | str (s : String)
  | obj (name : String) (params : JsParams)
  deriving DecidableEq

/-- JS truthiness of a transition value: `false` and `""` are falsy, every
object is truthy. -/
def TransitionValue.truthy : TransitionValue → Bool
  | .bool b => b
  | .str s => !(s == "")
  | .obj _ _ => true

/-- JS truthiness of a nullable transition slot (`null`/`undefined` are
falsy). -/
def truthyOpt : Option TransitionValue → Bool
  | none => false
  | some v => v.truthy

/-- Writes `f` at index `i` of a list, leaving other entries alone
(`l[i] = f(l[i])` on a JS array; out of range is untouched). -/
def updateAt : List α → Nat → (α → α) → List α
  | [], _, _ => []
  | x :: xs, 0, f => f x :: xs
  | x :: xs, n + 1, f => x :: updateAt xs n f

/-- First-match association-list lookup, the embedding of a JS object used
as a string-keyed map (`key in obj` / `obj[key]`). -/
def lookupAssoc : List (String × β) → String → Option β
  | [], _ => none
  | (k, v) :: rest, key => if k == key then some v else lookupAssoc rest key

/--
A scripted child entity obeying the base `Entity` contract
(entity.ts lines 82-119):

* `setup` sets `isSetup := true` and `requestedTransition := null`, then
  runs `_setup`; the scripted `_setup` may immediately request `onSetup`
  (as `TransitoryEntity` / `Decision` do).
* `update` runs the scripted `_update`: it consumes the next entry of
  `script` into `requestedTransition` (an empty script leaves the entity
  unchanged — an entity that never completes).
* `teardown` runs `_teardown` and clears `isSetup`.

`setups` / `teardowns` count the lifecycle calls received, making the
setup/teardown traces of the composites observable.
-/
structure SimEntity where
  isSetup : Bool := false
  requestedTransition : Option TransitionValue := none
  script : List (Option TransitionValue) := []
  onSetup : Option TransitionValue := none
  setups : Nat := 0
  teardowns : Nat := 0
  deriving DecidableEq

/-- Base `Entity.setup` bookkeeping applied to a scripted child. -/
def SimEntity.setup (e : SimEntity) : SimEntity :=
  { e with isSetup := true, requestedTransition := e.onSetup,
           setups := e.setups + 1 }

/-- Base `Entity.update` applied to a scripted child: runs the scripted
`_update`. -/
def SimEntity.update (e : SimEntity) : SimEntity :=
  match e.script with
  | [] => e
  | v :: rest => { e with requestedTransition := v, script := rest }

/-- Base `Entity.teardown` bookkeeping applied to a scripted child. -/
def SimEntity.teardown (e : SimEntity) : SimEntity :=
  { e with isSetup := false, teardowns := e.teardowns + 1 }

/-! ## Base `Entity` class (entity.ts lines 75-179)

The base class is a template: `setup`/`update`/`teardown` perform the
bookkeeping and delegate to the overridable `_setup`/`_update`/`_teardown`.
The embedding is parametric in those hooks: a hook is an arbitrary function
on the subclass-visible state (`requestedTransition`, the listener
registry, and private subclass state `σ`).  No `_setup`/`_update`/
`_teardown` in the source writes `isSetup`, which only the base methods
touch, so hooks do not receive it. -/

/-- An entry of the per-entity listener registry
(`IEventListener { emitter, event, cb }`); emitter and callback are
identified by ids. -/
structure EventRecord where
  emitter : Nat
  event : String
  cb : Nat
  deriving DecidableEq

/-- The state of a base `Entity` with subclass state `σ`. -/
structure EntityState (σ : Type) where
  isSetup : Bool := false
  requestedTransition : Option TransitionValue := none
  eventListeners : List EventRecord := []
  hasConfig : Bool := false
  inner : σ

/-- The part of an entity's state an `_setup`/`_update`/`_teardown`
override can read and write. -/
structure HookState (σ : Type) where
  requestedTransition : Option TransitionValue
  eventListeners : List EventRecord
  inner : σ

/-- An overridable extension point (`_setup`, `_update`, `_teardown`). -/
abbrev Hook (σ : Type) := HookState σ → HookState σ

/-- Runs a subclass hook inside the base entity state. -/
def EntityState.runHook (e : EntityState σ) (h : Hook σ) : EntityState σ :=
  let r := h ⟨e.requestedTransition, e.eventListeners, e.inner⟩
  { e with requestedTransition := r.requestedTransition,
           eventListeners := r.eventListeners, inner := r.inner }

/-- `Entity._on`: records the listener in the registry (and subscribes on
the emitter, an external effect). -/
def EntityState.onEvent (e : EntityState σ) (rec : EventRecord) :
    EntityState σ :=
  { e with eventListeners := e.eventListeners ++ [rec] }

/-- `Entity._off(emitter?, event?, cb?)`: selects `toRemove` by the source's
nested tests (a missing argument is `none`), unsubscribes each (external
effect), and keeps only the listeners not selected. -/
def EntityState.offEvent (e : EntityState σ) (emitter : Option Nat)
    (event : Option String) (cb : Option Nat) : EntityState σ :=
  let toRemove : List EventRecord :=
    match cb with
    | none =>
      match event with
      | none =>
        match emitter with
        | none => e.eventListeners
        | some em => e.eventListeners.filter (fun l => l.emitter == em)
      | some ev => e.eventListeners.filter (fun l => l.event == ev)
    | some c => e.eventListeners.filter (fun l => l.cb == c)
  { e with eventListeners :=
      e.eventListeners.filter (fun l => !(toRemove.contains l)) }

/-- `Entity.setup` (lines 82-94): reports a double setup (log only), stores
the config, marks the entity set up, clears `requestedTransition`, then
runs `_setup`. -/
def EntityState.setup (e : EntityState σ) (hSetup : Hook σ) : EntityState σ :=
  let e := { e with hasConfig := true, isSetup := true,
                    requestedTransition := none }
  e.runHook hSetup

/-- `Entity.update` (lines 96-104): reports update-before-setup (log only),
then runs `_update`. -/
def EntityState.update (e : EntityState σ) (hUpdate : Hook σ) :
    EntityState σ :=
  e.runHook hUpdate

/-- `Entity.teardown` (lines 106-119): runs `_teardown`, then removes all
event listeners via `_off()`, clears the config and the `isSetup` flag. -/
def EntityState.teardown (e : EntityState σ) (hTeardown : Hook σ) :
    EntityState σ :=
  let e := e.runHook hTeardown
  let e := e.offEvent none none none
  { e with hasConfig := false, isSetup := false }

/-- A freshly constructed entity (field initializers of the class). -/
def EntityState.fresh (inner : σ) : EntityState σ :=
  { inner := inner }

/-! ## `ParallelEntity` (entity.ts lines 204-325)

Children, config overrides, and active flags are index-aligned parallel
lists, as in the source.  A child slot may hold `null` (`none`): the
source's `FunctionalEntity` constructor stores `null` there.  Dereferencing
a `null` child raises a `TypeError`, modelled as `Except.error`.  Config
overrides never influence a `SimEntity`'s observable state, so
`processEntityConfig` is not re-modelled here; the override slots are kept
to record what was stored in them. -/

/-- A value stored in a composite's config-override slot (JS `any`): a
plain config value, or an `Entity` object mistakenly stored there (which
is what `FunctionalEntity`'s constructor does). -/
inductive ConfigOverride where
  | objVal (c : JsParams)
  | entityVal (e : SimEntity)
  deriving DecidableEq

structure ParallelEntity where
  entities : List (Option SimEntity) := []
  entityConfigs : List (Option ConfigOverride) := []
  entityIsActive : List Bool := []
  autoTransition : Bool := false
  requestedTransition : Option TransitionValue := none
  isSetup : Bool := false

/-- `ParallelEntity.addEntity` (lines 289-299): pushes the entity, its
config override and an active flag, then — if the composite is already set
up — sets the new entity up (reading `entity.isSetup` on `null` is a
`TypeError`). -/
def ParallelEntity.addEntity (pe : ParallelEntity) (entity : Option SimEntity)
    (entityConfig : Option ConfigOverride) : Except String ParallelEntity :=
  let pushed : Except String (Option SimEntity) :=
    if pe.isSetup then
      match entity with
      | none => .error "TypeError: cannot read isSetup of null"
      | some e => .ok (some (if e.isSetup then e else e.setup))
    else .ok entity
  pushed.map (fun newEntity =>
    { pe with entities := pe.entities ++ [newEntity],
              entityConfigs := pe.entityConfigs ++ [entityConfig],
              entityIsActive := pe.entityIsActive ++ [true] })

/-- The child loop of `ParallelEntity.setup` (lines 233-244): each
not-yet-set-up child is set up with its resolved config. -/
def peSetupChildren :
    List (Option SimEntity) → Except String (List (Option SimEntity))
  | [] => .ok []
  | none :: _ => .error "TypeError: cannot read isSetup of null"
  | some e :: es =>
    (fun r => some (if e.isSetup then e else e.setup) :: r) <$>
      peSetupChildren es

/-- `ParallelEntity.setup` (lines 230-245): base bookkeeping, then sets up
every not-yet-set-up child and marks every index active. -/
def ParallelEntity.setup (pe : ParallelEntity) : Except String ParallelEntity :=
  let pe := { pe with isSetup := true, requestedTransition := none }
  (peSetupChildren pe.entities).map (fun es =>
    { pe with entities := es,
              entityIsActive := List.replicate pe.entities.length true })

/-- The child loop of `ParallelEntity.update` (lines 250-262): each active
child is updated; a child whose `requestedTransition` turns truthy is torn
down and its active flag cleared.  Inactive children are skipped (a `null`
child is only dereferenced if its flag is active). -/
def peUpdateChildren : List (Option SimEntity) → List Bool →
    Except String (List (Option SimEntity) × List Bool)
  | [], acts => .ok ([], acts)
  | es, [] => .ok (es, [])
  | none :: es, a :: as =>
    if a then .error "TypeError: cannot read update of null"
    else (fun r => (none :: r.1, a :: r.2)) <$> peUpdateChildren es as
  | some e :: es, a :: as =>
    if a then
      let e := e.update
      if truthyOpt e.requestedTransition then
        (fun r => (some e.teardown :: r.1, false :: r.2)) <$>
          peUpdateChildren es as
      else
        (fun r => (some e :: r.1, a :: r.2)) <$> peUpdateChildren es as
    else (fun r => (some e :: r.1, a :: r.2)) <$> peUpdateChildren es as

/-- `ParallelEntity.update` (lines 247-266): updates the children, then —
with `autoTransition` and no child left active — requests transition
`true`. -/
def ParallelEntity.update (pe : ParallelEntity) : Except String ParallelEntity :=
  (peUpdateChildren pe.entities pe.entityIsActive).map (fun r =>
    let rt := if pe.autoTransition && !(r.2.any (fun b => b)) then
                some (.bool true)
              else pe.requestedTransition
    { pe with entities := r.1, entityIsActive := r.2,
              requestedTransition := rt })

/-- The child loop of `ParallelEntity.teardown` (lines 269-274): every
still-active child is torn down and deactivated. -/
def peTeardownChildren : List (Option SimEntity) → List Bool →
    Except String (List (Option SimEntity) × List Bool)
  | [], acts => .ok ([], acts)
  | es, [] => .ok (es, [])
  | none :: es, a :: as =>
    if a then .error "TypeError: cannot read teardown of null"
    else (fun r => (none :: r.1, a :: r.2)) <$> peTeardownChildren es as
  | some e :: es, a :: as =>
    if a then
      (fun r => (some e.teardown :: r.1, false :: r.2)) <$>
        peTeardownChildren es as
    else (fun r => (some e :: r.1, a :: r.2)) <$> peTeardownChildren es as

/-- `ParallelEntity.teardown` (lines 268-277): tears down the active
children, then runs the base teardown (clearing `isSetup`). -/
def ParallelEntity.teardown (pe : ParallelEntity) :
    Except String ParallelEntity :=
  (peTeardownChildren pe.entities pe.entityIsActive).map (fun r =>
    { pe with entities := r.1, entityIsActive := r.2, isSetup := false })

/-! ## `FunctionalEntity` (entity.ts lines 683-740)

`FunctionalEntity extends ParallelEntity`; its constructor loops over
`childEntities` and calls `this.addEntity(null, childEntity)` — passing
`null` in the entity slot and the child in the config-override slot.  The
callback record (`setup`/`update`/... functions) does not interact with the
child bookkeeping and is not modelled. -/

/-- The constructor of `FunctionalEntity` (lines 685-707), restricted to
its child-attaching loop: `for (let childEntity of childEntities)
this.addEntity(null, childEntity)` on a freshly constructed
`ParallelEntity`. -/
def FunctionalEntity.construct (childEntities : List SimEntity) :
    Except String ParallelEntity :=
  childEntities.foldlM
    (fun pe childEntity => pe.addEntity none (some (.entityVal childEntity)))
    {}

/-! ## `DeflatingCompositeEntity` (entity.ts lines 1020-1106) -/

structure DeflatingCompositeEntity where
  entities : List SimEntity := []
  autoTransition : Bool := true
  requestedTransition : Option TransitionValue := none
  isSetup : Bool := false

/-- `DeflatingCompositeEntity.setup` (lines 1035-1043): base bookkeeping,
then sets up every not-yet-set-up child. -/
def DeflatingCompositeEntity.setup (d : DeflatingCompositeEntity) :
    DeflatingCompositeEntity :=
  { d with isSetup := true, requestedTransition := none,
           entities := d.entities.map (fun e => if e.isSetup then e else e.setup) }

/-- The splicing child loop of `DeflatingCompositeEntity.update`
(lines 1049-1064): each child is updated in order; a child whose
`requestedTransition` turns truthy is torn down (if set up) and spliced out.
Returns the surviving list together with the removed (torn-down) children;
the class keeps only the survivors, the removed list makes the teardown
effect on spliced-out children observable. -/
def dceUpdateChildren : List SimEntity → List SimEntity × List SimEntity
  | [] => ([], [])
  | e :: es =>
    let e := e.update
    let rest := dceUpdateChildren es
    if truthyOpt e.requestedTransition then
      (rest.1, (if e.isSetup then e.teardown else e) :: rest.2)
    else (e :: rest.1, rest.2)

/-- `DeflatingCompositeEntity.update` (lines 1045-1069): updates/splices the
children, then — with `autoTransition` and an empty list — requests
transition `true`. -/
def DeflatingCompositeEntity.update (d : DeflatingCompositeEntity) :
    DeflatingCompositeEntity :=
  let survivors := (dceUpdateChildren d.entities).1
  let rt := if d.autoTransition && survivors.length == 0 then
              some (.bool true)
            else d.requestedTransition
  { d with entities := survivors, requestedTransition := rt }

/-- `DeflatingCompositeEntity.addEntity` (lines 1087-1094): if the composite
is already set up, the new not-yet-set-up entity is set up, then pushed. -/
def DeflatingCompositeEntity.addEntity (d : DeflatingCompositeEntity)
    (entity : SimEntity) : DeflatingCompositeEntity :=
  let entity := if d.isSetup && !entity.isSetup then entity.setup else entity
  { d with entities := d.entities ++ [entity] }

/-! ## `Alternative` (entity.ts lines 1155-1201)

(The class is named `AlternativeEntity` here because `Alternative` is taken
by a core Lean typeclass.) -/

structure AlternativeEntity where
  entityPairs : List (SimEntity × String) := []
  requestedTransition : Option TransitionValue := none
  isSetup : Bool := false

/-- The `Alternative` constructor (lines 1160-1178) on bare entities: each
child is paired with the default label, the string form of its list
index. -/
def AlternativeEntity.construct (entities : List SimEntity) : AlternativeEntity :=
  { entityPairs := entities.enum.map (fun p => (p.2, toString p.1)) }

/-- The child loop of `Alternative._setup` (lines 1180-1186): sets up every
child; each child already requesting a transition overwrites the
Alternative's `requestedTransition` with that child's label. -/
def altSetupPairs : List (SimEntity × String) → Option TransitionValue →
    List (SimEntity × String) × Option TransitionValue
  | [], rt => ([], rt)
  | (e, t) :: ps, rt =>
    let e := e.setup
    let rt := if truthyOpt e.requestedTransition then
                some (.str t)
              else rt
    let rest := altSetupPairs ps rt
    ((e, t) :: rest.1, rest.2)

/-- `AlternativeEntity.setup`: base bookkeeping, then `_setup`'s race loop. -/
def AlternativeEntity.setup (alt : AlternativeEntity) : AlternativeEntity :=
  let alt := { alt with isSetup := true, requestedTransition := none }
  let r := altSetupPairs alt.entityPairs alt.requestedTransition
  { alt with entityPairs := r.1, requestedTransition := r.2 }

/-- The child loop of `Alternative._update` (lines 1188-1194): updates
every child (completed or not); each child whose `requestedTransition` is
truthy after its update overwrites the Alternative's
`requestedTransition` with that child's label. -/
def altUpdatePairs : List (SimEntity × String) → Option TransitionValue →
    List (SimEntity × String) × Option TransitionValue
  | [], rt => ([], rt)
  | (e, t) :: ps, rt =>
    let e := e.update
    let rt := if truthyOpt e.requestedTransition then
                some (.str t)
              else rt
    let rest := altUpdatePairs ps rt
    ((e, t) :: rest.1, rest.2)

/-- `AlternativeEntity.update`: base bookkeeping, then `_update`'s race loop. -/
def AlternativeEntity.update (alt : AlternativeEntity) : AlternativeEntity :=
  let r := altUpdatePairs alt.entityPairs alt.requestedTransition
  { alt with entityPairs := r.1, requestedTransition := r.2 }

/-- `Alternative._teardown` + base (lines 1196-1200): every child is torn
down together when the Alternative itself is. -/
def AlternativeEntity.teardown (alt : AlternativeEntity) : AlternativeEntity :=
  { alt with entityPairs := alt.entityPairs.map (fun p => (p.1.teardown, p.2)),
             isSetup := false }

/-! ## `EntitySequence` (entity.ts lines 336-440)

The source keeps a `currentEntity` reference next to `currentEntityIndex`;
with concrete (non-factory) entity descriptors — the only kind the claims
exercise — `currentEntity` aliases `entities[currentEntityIndex]`, so the
embedding stores the children in the descriptor list and reads/writes the
current one by index (factory descriptors are not modelled).
`_activateEntity` on an out-of-range index dereferences `undefined` in the
source (a crash); the claims only activate in range, where the embedding's
in-range write applies. -/

structure EntitySequence where
  entities : List SimEntity := []
  loop : Bool := false
  currentEntityIndex : Nat := 0
  requestedTransition : Option TransitionValue := none
  lastRequestedTransition : Option TransitionValue := none
  isSetup : Bool := false

/-- `EntitySequence._activateEntity` (lines 410-419): the current
descriptor becomes the current entity and is set up. -/
def EntitySequence.activateEntity (s : EntitySequence) : EntitySequence :=
  { s with entities := updateAt s.entities s.currentEntityIndex SimEntity.setup }

/-- `EntitySequence._deactivateEntity` (lines 421-424): tears the current
entity down if it exists and is set up. -/
def EntitySequence.deactivateEntity (s : EntitySequence) : EntitySequence :=
  match s.entities.get? s.currentEntityIndex with
  | some e =>
    if e.isSetup then
      { s with entities :=
          updateAt s.entities s.currentEntityIndex SimEntity.teardown }
    else s
  | none => s

/-- `EntitySequence.setup` (lines 363-370): base bookkeeping, reset the
index to 0, and activate the first entity. -/
def EntitySequence.setup (s : EntitySequence) : EntitySequence :=
  let s := { s with isSetup := true, requestedTransition := none,
                    currentEntityIndex := 0 }
  s.activateEntity

/-- `EntitySequence._advance` (lines 426-439): tear down the current
entity, then move to the next index / wrap to 0 when looping / adopt the
child's transition as the sequence's own completion. -/
def EntitySequence.advance (s : EntitySequence)
    (transition : Option TransitionValue) : EntitySequence :=
  if s.currentEntityIndex < s.entities.length - 1 then
    let s := s.deactivateEntity
    let s := { s with currentEntityIndex := s.currentEntityIndex + 1 }
    s.activateEntity
  else if s.loop then
    let s := s.deactivateEntity
    let s := { s with currentEntityIndex := 0 }
    s.activateEntity
  else
    let s := s.deactivateEntity
    { s with requestedTransition := transition }

/-- `EntitySequence.update` (lines 372-383): the never-assigned
`lastRequestedTransition` guard, the exhausted-index guard, then update the
current entity and `_advance` if it requested a (truthy) transition. -/
def EntitySequence.update (s : EntitySequence) : EntitySequence :=
  if truthyOpt s.lastRequestedTransition then s
  else if s.entities.length ≤ s.currentEntityIndex then s
  else
    let s := { s with
      entities := updateAt s.entities s.currentEntityIndex SimEntity.update }
    match s.entities.get? s.currentEntityIndex with
    | none => s
    | some c =>
      if truthyOpt c.requestedTransition then s.advance c.requestedTransition
      else s

/-- `EntitySequence.skip` (lines 357-361): a forced advance with the
synthetic transition `{ name: "skip" }`. -/
def EntitySequence.skip (s : EntitySequence) : EntitySequence :=
  if truthyOpt s.requestedTransition then s
  else s.advance (some (.obj "skip" none))

/-- `EntitySequence.restart` (lines 401-408): deactivate, reset the index
to 0, assign `requestedTransition = false`, reactivate. -/
def EntitySequence.restart (s : EntitySequence) : EntitySequence :=
  let s := s.deactivateEntity
  let s := { s with currentEntityIndex := 0,
                    requestedTransition := some (.bool false) }
  s.activateEntity

/-- `EntitySequence.teardown` (lines 385-389): deactivate the current
entity, then base teardown. -/
def EntitySequence.teardown (s : EntitySequence) : EntitySequence :=
  let s := s.deactivateEntity
  { s with isSetup := false }

/-! ## `StateMachine` + `makeTransitionTable` (entity.ts lines 453-670)

A transition-table entry (`TransitionResolvable`) is a string, a
`{ name, params }` object (which `update` cannot decode), or a resolver
function.  `StateMachine.update` invokes a resolver entry with three
arguments: the transition name, the transition params, and `this` — the
`StateMachine` object itself.  `ResolverContext` is the type of that third
argument: either the machine object (with its observable `stateName`
field) or a plain string, so that what the call site actually passes is
distinguishable from the previous-state-name string that
`makeTransitionTable`'s signature declares. -/

/-- The third argument of a resolver invocation. -/
inductive ResolverContext where
  | machineRef (stateName : Option String)
  | strVal (s : String)
  deriving DecidableEq

/-- The JS property key a value coerces to when used with `in` / as an
object index. -/
def TransitionValue.propKey : TransitionValue → String
  | .str s => s
  | .bool b => if b then "true" else "false"
  | .obj _ _ => "[object Object]"

/-- The JS property key of the nullable `stateName` field. -/
def jsPropKey : Option String → String
  | some s => s
  | none => "null"

/-- A transition-table entry (`TransitionResolvable`). -/
inductive TransitionEntry where
  | str (s : String)
  | obj (name : String) (params : JsParams)
  | fn (f : TransitionValue → JsParams → ResolverContext →
        Except String TransitionValue)

/-- A state descriptor: a concrete entity or a factory of the state params
(the factory's second argument, the machine itself, is not modelled — no
claim uses it). -/
inductive StateDescriptor where
  | ent (e : SimEntity)
  | factory (f : JsParams → SimEntity)

structure StateMachine where
  states : List (String × StateDescriptor)
  transitions : List (String × TransitionEntry)
  startingState : String := "start"
  endingStates : List String := ["end"]
  startingStateParams : JsParams := none
  visitedStates : List String := []
  state : Option SimEntity := none
  stateName : Option String := none
  stateParams : JsParams := none
  requestedTransition : Option TransitionValue := none
  isSetup : Bool := false

/-- `StateMachine._changeState` (lines 582-621): an ending state sets the
machine's own `requestedTransition` to the state's name and records the
visit, with no teardown and no new entity; otherwise the prior state entity
is torn down (the reference is then replaced), the next state is resolved
in `states` (a missing name is fatal), constructed if a factory, set up,
and recorded (a `stateChange` event is emitted — an external effect). -/
def StateMachine.changeState (m : StateMachine) (nextStateName : String)
    (nextStateParams : JsParams) : Except String StateMachine :=
  if m.endingStates.contains nextStateName then
    .ok { m with requestedTransition := some (.str nextStateName),
                 visitedStates := m.visitedStates ++ [nextStateName] }
  else
    let m := { m with state := m.state.map SimEntity.teardown }
    match lookupAssoc m.states nextStateName with
    | none => .error ("Cannot find state " ++ nextStateName)
    | some desc =>
      let newState :=
        match desc with
        | .ent e => e
        | .factory f => f nextStateParams
      .ok { m with state := some newState.setup,
                   stateName := some nextStateName,
                   stateParams := nextStateParams,
                   visitedStates := m.visitedStates ++ [nextStateName] }

/-- `StateMachine.setup` (lines 479-494): base bookkeeping, reset
`visitedStates`, and enter the starting state (the starting
state/params-as-function indirection and the `progress` clone are not
modelled — no claim uses them). -/
def StateMachine.setup (m : StateMachine) : Except String StateMachine :=
  let m := { m with isSetup := true, requestedTransition := none,
                    visitedStates := [] }
  m.changeState m.startingState m.startingStateParams

/-- `StateMachine.update` (lines 496-564): update the active state entity;
if it requested a (truthy) transition, unpack it, resolve the next-state
descriptor (direct jump to a known state if the current state has no table
entry; otherwise the table entry as a string, or a resolver invoked with
`(requestedTransitionName, requestedTransitionParams, this)` — `this`
being the machine itself; other entry shapes are fatal), decode the
descriptor and change state. -/
def StateMachine.update (m : StateMachine) : Except String StateMachine :=
  match m.state with
  | none => .ok m
  | some st0 =>
    let st := st0.update
    let m := { m with state := some st }
    match st.requestedTransition with
    | none => .ok m
    | some requestedTransition =>
      if !requestedTransition.truthy then .ok m
      else
        let requestedTransitionName : TransitionValue :=
          match requestedTransition with
          | .obj n _ => .str n
          | v => v
        let requestedTransitionParams : JsParams :=
          match requestedTransition with
          | .obj _ p => p
          | _ => none
        let stateKey := jsPropKey m.stateName
        let descE : Except String TransitionValue :=
          match lookupAssoc m.transitions stateKey with
          | none =>
            let direct :=
              match requestedTransitionName with
              | .str s => (lookupAssoc m.states s).isSome
              | _ => false
            if direct then .ok requestedTransition
            else .error ("Cannot find transition for state " ++ stateKey)
          | some (.fn f) =>
            f requestedTransitionName requestedTransitionParams
              (.machineRef m.stateName)
          | some (.str s) => .ok (.str s)
          | some (.obj _ _) => .error "Cannot decode transition descriptor"
        match descE with
        | .error e => .error e
        | .ok desc =>
          match desc with
          | .obj nextStateName nextStateParams =>
            m.changeState nextStateName nextStateParams
          | .str nextStateName =>
            m.changeState nextStateName requestedTransitionParams
          | .bool _ => .error "Cannot decode state descriptor"

/-- `StateMachine.teardown` (lines 566-574): the active state entity is
torn down and dropped, then the base teardown runs. -/
def StateMachine.teardown (m : StateMachine) : StateMachine :=
  { m with state := none, stateName := none, isSetup := false }

/-- An entry of the flat map handed to `makeTransitionTable`: a next-state
descriptor string, or a nested 4-parameter resolver returning one. -/
inductive TableEntry where
  | str (s : String)
  | fn (g : TransitionValue → JsParams → ResolverContext → Option JsParams →
        String)

/-- `makeTransitionTable` (lines 635-670): builds the closure
`f(requestedTransitionName, requestedTransitionParams, previousStateName,
previousStateParams)` that looks the transition name up in the flat table
(a miss is fatal) and either returns the string entry or delegates to the
nested resolver with all four parameters.  `StateMachine.update` invokes
`f` with only three arguments, so inside `f` the fourth parameter
`previousStateParams` is `undefined`, and the third parameter
`previousStateName` is bound to whatever the caller passed as the third
argument. -/
def makeTransitionTable (table : List (String × TableEntry)) :
    TransitionValue → JsParams → ResolverContext →
    Except String TransitionValue :=
  fun requestedTransitionName requestedTransitionParams previousStateName =>
    let previousStateParams : Option JsParams := none
    match lookupAssoc table requestedTransitionName.propKey with
    | some (.str s) => .ok (.str s)
    | some (.fn g) =>
      .ok (.str (g requestedTransitionName requestedTransitionParams
        previousStateName previousStateParams))
    | none =>
      .error ("Cannot find state " ++ requestedTransitionName.propKey)

/-! ## `SwitchingEntity` (entity.ts lines 1207-1309) -/

structure SwitchingEntity where
  entities : List SimEntity := []
  entityConfigs : List (Option ConfigOverride) := []
  activeEntityIndex : Int := -1
  requestedTransition : Option TransitionValue := none
  isSetup : Bool := false

/-- `SwitchingEntity.switchToIndex` (lines 1252-1270): tears down the
active child if there is one (`activeEntityIndex >= 0`), stores the new
index, and sets up the newly active child if the new index is
non-negative. -/
def SwitchingEntity.switchToIndex (s : SwitchingEntity) (index : Int) :
    SwitchingEntity :=
  let s :=
    if 0 ≤ s.activeEntityIndex then
      { s with entities :=
          updateAt s.entities s.activeEntityIndex.toNat SimEntity.teardown }
    else s
  let s := { s with activeEntityIndex := index }
  if 0 ≤ s.activeEntityIndex then
    { s with entities :=
        updateAt s.entities s.activeEntityIndex.toNat SimEntity.setup }
  else s

/-- `SwitchingEntity.setup` (lines 1216-1222): base bookkeeping, then —
only when `this.entities` (always truthy, an array) and
`activeEntityIndex > 0`, a strict inequality — re-switch to the stored
index. -/
def SwitchingEntity.setup (s : SwitchingEntity) : SwitchingEntity :=
  let s := { s with isSetup := true, requestedTransition := none }
  if 0 < s.activeEntityIndex then s.switchToIndex s.activeEntityIndex else s

/-- `SwitchingEntity.update` (lines 1224-1230): only the active child is
updated. -/
def SwitchingEntity.update (s : SwitchingEntity) : SwitchingEntity :=
  if 0 ≤ s.activeEntityIndex then
    { s with entities :=
        updateAt s.entities s.activeEntityIndex.toNat SimEntity.update }
  else s

/-- `SwitchingEntity.teardown` (lines 1232-1236): switch to "none" (tearing
the active child down), then base teardown. -/
def SwitchingEntity.teardown (s : SwitchingEntity) : SwitchingEntity :=
  let s := s.switchToIndex (-1)
  { s with isSetup := false }

/-- `SwitchingEntity.addEntity` (lines 1247-1250): pushes the entity and
its config override; nothing is set up. -/
def SwitchingEntity.addEntity (s : SwitchingEntity) (entity : SimEntity)
    (entityConfig : Option ConfigOverride) : SwitchingEntity :=
  { s with entities := s.entities ++ [entity],
           entityConfigs := s.entityConfigs ++ [entityConfig] }

/-- `SwitchingEntity.switchToEntity` (lines 1272-1281): `null` switches to
"none"; otherwise the entity is resolved to its index (absence is fatal)
and delegated to `switchToIndex`. -/
def SwitchingEntity.switchToEntity (s : SwitchingEntity)
    (entity : Option SimEntity) : Except String SwitchingEntity :=
  match entity with
  | none => .ok (s.switchToIndex (-1))
  | some e =>
    match s.entities.findIdx? (fun x => x == e) with
    | none => .error "Cannot find entity"
    | some index => .ok (s.switchToIndex index)

/-! ## Concrete fixtures and run harnesses used by the theorems -/

/-- Iterates `EntitySequence.update` `n` times. -/
def runSeqUpdates : Nat → EntitySequence → EntitySequence
  | 0, s => s
  | n + 1, s => runSeqUpdates n s.update

/-- A scripted child that runs idle for `k` updates and then requests the
transition `t`. -/
def mkScripted (k : Nat) (t : TransitionValue) : SimEntity :=
  { script := List.replicate k none ++ [some t] }

/-- A three-child sequence of scripted children (the §8 test shape). -/
def c6Seq (k0 k1 k2 : Nat) (t0 t1 t2 : TransitionValue) (l : Bool) :
    EntitySequence :=
  { entities := [mkScripted k0 t0, mkScripted k1 t1, mkScripted k2 t2],
    loop := l }

/-- A child that completes with `true` on its first update. -/
def chA : SimEntity := { script := [some (.bool true)] }

/-- A second child that also completes with `true` on its first update. -/
def chB : SimEntity := { script := [some (.bool true)] }

/-- The `{start, middle, end}` machine of spec §8: `start`'s child requests
`"win"`, `middle`'s child requests `"finish"`; tables
`{start: {win: "middle"}, middle: {finish: "end"}}` via
`makeTransitionTable`. -/
def c3Machine : StateMachine :=
  { states := [("start", .ent { script := [some (.str "win")] }),
               ("middle", .ent { script := [some (.str "finish")] })],
    transitions :=
      [("start", .fn (makeTransitionTable [("win", .str "middle")])),
       ("middle", .fn (makeTransitionTable [("finish", .str "end")]))] }

/-- The full §8 run: setup, then two updates (win, then finish). -/
def c3Run : Except String StateMachine := do
  let m ← c3Machine.setup
  let m ← m.update
  m.update

/-- A nested table resolver that reports what it received as its
`previousStateName` parameter: `"sawMachine"` if the StateMachine object,
`"sawString"` if a plain string. -/
def probeResolver :
    TransitionValue → JsParams → ResolverContext → Option JsParams → String :=
  fun _ _ previousStateName _ =>
    match previousStateName with
    | .machineRef _ => "sawMachine"
    | .strVal _ => "sawString"

/-- A machine whose `start` table entry is built by `makeTransitionTable`
around `probeResolver`; the state it lands in records which kind of third
argument the resolver received. -/
def probeMachine : StateMachine :=
  { states := [("start", .ent { script := [some (.str "win")] }),
               ("sawMachine", .ent {}),
               ("sawString", .ent {})],
    transitions :=
      [("start", .fn (makeTransitionTable [("win", .fn probeResolver)]))] }

/-- Setup plus the one update on which `start`'s child requests `"win"`. -/
def probeRun : Except String StateMachine := do
  let m ← probeMachine.setup
  m.update

/-- A child entity handed to the `FunctionalEntity` constructor. -/
def c9Child : SimEntity := {}

/-- Three parallel children: 0 and 2 complete on the first update, 1 only
on the second (the §8 ParallelEntity test shape). -/
def c4Par : ParallelEntity :=
  { entities := [some { script := [some (.bool true)] },
                 some { script := [none, some (.str "x")] },
                 some { script := [some (.obj "t" none)] }],
    entityConfigs := [none, none, none],
    entityIsActive := [true, true, true],
    autoTransition := true }

/-- Deflating composite with children {A, B}: A completes on the first
update, B on the second. -/
def c5Dce : DeflatingCompositeEntity :=
  { entities := [{ script := [some (.bool true)] },
                 { script := [none, some (.bool true)] }] }

/-- A two-child switching entity, freshly constructed. -/
def c10Sw : SwitchingEntity :=
  { entities := [{}, {}] }

/-! # Theorems -/

/-! ## Helper lemmas about `updateAt` -/

theorem updateAt_length (l : List α) (i : Nat) (f : α → α) :
    (updateAt l i f).length = l.length := by
  induction l generalizing i with
  | nil => rfl
  | cons x xs ih =>
    cases i with
    | zero => rfl
    | succ n => simp [updateAt, ih]

theorem updateAt_get?_self (l : List α) (i : Nat) (f : α → α) :
    (updateAt l i f).get? i = Option.map f (l.get? i) := by
  induction l generalizing i with
  | nil => cases i <;> rfl
  | cons x xs ih =>
    cases i with
    | zero => rfl
    | succ n => simpa [updateAt] using ih n

theorem updateAt_get?_other (l : List α) (i j : Nat) (f : α → α)
    (h : i ≠ j) : (updateAt l i f).get? j = l.get? j := by
  induction l generalizing i j with
  | nil => rfl
  | cons x xs ih =>
    cases i with
    | zero =>
      cases j with
      | zero => exact absurd rfl h
      | succ m => simp [updateAt]
    | succ n =>
      cases j with
      | zero => rfl
      | succ m =>
        simpa [updateAt] using ih n m (by omega)

theorem updateAt_congr (l : List α) (i : Nat) (f g : α → α) (x : α)
    (hx : l.get? i = some x) (hfg : f x = g x) :
    updateAt l i f = updateAt l i g := by
  induction l generalizing i with
  | nil => rfl
  | cons y ys ih =>
    cases i with
    | zero =>
      simp only [List.get?_cons_zero, Option.some.injEq] at hx
      subst hx
      simp [updateAt, hfg]
    | succ n =>
      simp only [List.get?_cons_succ] at hx
      simp [updateAt, ih n hx]

theorem updateAt_updateAt (l : List α) (i : Nat) (f g : α → α) :
    updateAt (updateAt l i f) i g = updateAt l i (fun x => g (f x)) := by
  induction l generalizing i with
  | nil => rfl
  | cons x xs ih =>
    cases i with
    | zero => rfl
    | succ n => simp [updateAt, ih]

/-! ## C7 / C8: the base `Entity` contract -/

/-- Filtering a list by non-membership in a superset of itself leaves
nothing. -/
theorem filter_not_contains (sub : List EventRecord) :
    ∀ l : List EventRecord, (∀ a ∈ l, sub.contains a = true) →
      l.filter (fun x => !(sub.contains x)) = [] := by
  intro l
  induction l with
  | nil => intro _; rfl
  | cons x xs ih =>
    intro h
    have hx := h x (by simp)
    have hrest := ih (fun a ha => h a (by simp [ha]))
    rw [List.filter_cons, hx]
    simpa using hrest

/--
C7: for every entity, under correct caller usage (setup, then updates,
then teardown), the `isSetup` flag is `false` before the first `setup`
call, `true` from the return of `setup` until `teardown`, and `false`
again after `teardown` returns — for arbitrary subclass
`_setup`/`_update`/`_teardown` overrides.
-/
theorem C7_isSetup_lifecycle {σ : Type} (inner0 : σ)
    (hs hu ht : Hook σ) (e : EntityState σ) :
    (EntityState.fresh inner0).isSetup = false ∧
    (e.setup hs).isSetup = true ∧
    (e.update hu).isSetup = e.isSetup ∧
    (e.teardown ht).isSetup = false :=
  ⟨rfl, rfl, rfl, rfl⟩

/--
C8: for every entity, immediately after `teardown` returns the
`eventListeners` registry is empty — so every listener registered via
`_on` during the setup/update lifetime is absent from it — and this
release is unconditional: it holds for an arbitrary `_teardown` override
`ht`, including one that unsubscribes nothing (or even one that registers
more listeners).
-/
theorem C8_listeners_released {σ : Type} (ht : Hook σ) (e : EntityState σ) :
    (e.teardown ht).eventListeners = [] ∧
    ∀ rec : EventRecord, rec ∉ (e.teardown ht).eventListeners := by
  have hmain : (e.teardown ht).eventListeners = [] := by
    show ((e.runHook ht).offEvent none none none).eventListeners = []
    unfold EntityState.offEvent
    exact filter_not_contains _ _ (fun a ha => by simp [List.contains, ha, List.elem_iff])
  exact ⟨hmain, fun rec => by simp [hmain]⟩

/-! ## C1: `Alternative` simultaneous completion -/

/--
C1 counterexample: with children `[chA, chB]` both completing on the same
update, the Alternative's `requestedTransition` is `"1"` — the label of
the *last*-listed completed child — and not `"0"` as the claim states.
-/
theorem C1_counterexample :
    ((((AlternativeEntity.construct [chA, chB]).setup).update).requestedTransition
        = some (.str "1")) ∧
    ((((AlternativeEntity.construct [chA, chB]).setup).update).requestedTransition
        ≠ some (.str "0")) := by
  refine ⟨rfl, by decide⟩

/--
C1 amended: for an Alternative whose children are all set up, if several
children's `requestedTransition` become truthy during the same update
pass, the Alternative's own `requestedTransition` equals the label of the
*last*-listed completed child (each completer in list order overwrites the
slot); in particular, with children `[a, b]` both completing on the same
update, the Alternative's transition is `"1"`.
-/
theorem C1_last_completer_wins (a b : SimEntity)
    (ha0 : truthyOpt (a.setup).requestedTransition = false)
    (hb0 : truthyOpt (b.setup).requestedTransition = false)
    (ha : truthyOpt ((a.setup).update).requestedTransition = true)
    (hb : truthyOpt ((b.setup).update).requestedTransition = true) :
    (((AlternativeEntity.construct [a, b]).setup).update).requestedTransition
      = some (.str "1") := by
  simp [AlternativeEntity.construct, AlternativeEntity.setup,
    AlternativeEntity.update, altSetupPairs, altUpdatePairs,
    List.enum, List.enumFrom, ha0, hb0, ha, hb]
  rfl

/-- C1 witness: the amended theorem applied to the concrete pair
`[chA, chB]`. -/
theorem C1_last_completer_wins_witness :
    truthyOpt (chA.setup).requestedTransition = false ∧
    truthyOpt (chB.setup).requestedTransition = false ∧
    truthyOpt ((chA.setup).update).requestedTransition = true ∧
    truthyOpt ((chB.setup).update).requestedTransition = true ∧
    (((AlternativeEntity.construct [chA, chB]).setup).update).requestedTransition
      = some (.str "1") :=
  ⟨by decide, by decide, by decide, by decide,
   C1_last_completer_wins chA chB (by decide) (by decide) (by decide)
     (by decide)⟩

/-! ## C2: the third argument of a resolver invocation -/

/--
C2 (code-bug evidence): running `probeMachine` — whose `start` entry is a
resolver built by `makeTransitionTable` around `probeResolver`, which
reports the kind of its `previousStateName` argument — lands the machine in
state `"sawMachine"`: `StateMachine.update` passed the machine object
itself (`this`) as the resolver's third argument, not the current state's
name.  Had the claimed `(transitionName, transitionParams,
currentStateName)` call shape held, the resolver would have returned
`"sawString"` (third conjunct) and the machine would be in that state
instead.
-/
theorem C2_resolver_receives_machine :
    Option.map StateMachine.stateName probeRun.toOption
      = some (some "sawMachine") ∧
    Option.map StateMachine.stateName probeRun.toOption
      ≠ some (some "sawString") ∧
    probeResolver (.str "win") none (.strVal "start") none = "sawString" := by
  refine ⟨rfl, by decide, rfl⟩

/-! ## C3: ending states and `visitedStates` -/

/--
C3 counterexample: on the §8 machine (`start` → `middle` → `end`), the
full run leaves `visitedStates = ["start", "middle", "end"]` — the
*initial* state is recorded too — not `["middle", "end"]` as the
"every non-initial state name" reading predicts.
-/
theorem C3_counterexample :
    Option.map StateMachine.visitedStates c3Run.toOption
      = some ["start", "middle", "end"] ∧
    Option.map StateMachine.visitedStates c3Run.toOption
      ≠ some ["middle", "end"] := by
  refine ⟨rfl, by decide⟩

/--
C3 amended: when a resolved next-state name is one of the ending states,
the machine sets its own `requestedTransition` to that name and appends
the name to `visitedStates`, without constructing or setting up an entity
for it and without tearing anything down at that moment (`state` and
`stateName` are untouched); and `visitedStates` records every visited
state name — *including the initial state* — in visitation order, as the
concrete §8 run shows (`["start", "middle", "end"]`, machine transition
`"end"`, prior state entity still set up).
-/
theorem C3_ending_state_and_visited :
    (∀ (m : StateMachine) (name : String) (params : JsParams),
        m.endingStates.contains name = true →
        ∃ m', m.changeState name params = .ok m' ∧
          m'.requestedTransition = some (.str name) ∧
          m'.visitedStates = m.visitedStates ++ [name] ∧
          m'.state = m.state ∧ m'.stateName = m.stateName) ∧
    Option.map StateMachine.visitedStates c3Run.toOption
      = some ["start", "middle", "end"] ∧
    Option.map StateMachine.requestedTransition c3Run.toOption
      = some (some (.str "end")) ∧
    Option.map (fun m => Option.map SimEntity.isSetup m.state) c3Run.toOption
      = some (some true) := by
  refine ⟨?_, rfl, rfl, rfl⟩
  intro m name params h
  unfold StateMachine.changeState
  rw [if_pos h]
  exact ⟨_, rfl, rfl, rfl, rfl, rfl⟩

/-- C3 witness: the ending-state part of the amended theorem applied to
the concrete machine at state name `"end"`. -/
theorem C3_ending_state_witness :
    c3Machine.endingStates.contains "end" = true ∧
    ∃ m', c3Machine.changeState "end" none = .ok m' ∧
      m'.requestedTransition = some (.str "end") ∧
      m'.visitedStates = c3Machine.visitedStates ++ ["end"] ∧
      m'.state = c3Machine.state ∧ m'.stateName = c3Machine.stateName :=
  ⟨by decide, C3_ending_state_and_visited.1 c3Machine "end" none (by decide)⟩

/-! ## C10: `SwitchingEntity.setup` activates nothing -/

/--
C10: a fresh `SwitchingEntity` has `activeEntityIndex = -1` (and
`addEntity` pushes without setting anything up or moving the index);
`setup` with `activeEntityIndex ≤ 0` — which covers the fresh `-1` and
also a previously active index `0`, since the re-activation branch
requires a strictly positive index — sets up no child and leaves
`activeEntityIndex` unchanged; and an explicit `switchToIndex i` with
`0 ≤ i` does activate: it stores `i` and sets up the child at `i`.
-/
theorem C10_switching_setup_inert :
    (∀ (es : List SimEntity) (cfgs : List (Option ConfigOverride)),
        ({ entities := es, entityConfigs := cfgs } :
          SwitchingEntity).activeEntityIndex = -1) ∧
    (∀ (s : SwitchingEntity) (e : SimEntity) (cfg : Option ConfigOverride),
        (s.addEntity e cfg).activeEntityIndex = s.activeEntityIndex ∧
        (s.addEntity e cfg).entities = s.entities ++ [e]) ∧
    (∀ s : SwitchingEntity, s.activeEntityIndex ≤ 0 →
        (s.setup).activeEntityIndex = s.activeEntityIndex ∧
        (s.setup).entities = s.entities ∧
        (s.setup).isSetup = true) ∧
    (∀ (s : SwitchingEntity) (i : Int) (e : SimEntity), 0 ≤ i →
        s.entities.get? i.toNat = some e →
        (s.switchToIndex i).activeEntityIndex = i ∧
        ∃ e', (s.switchToIndex i).entities.get? i.toNat = some e' ∧
          e'.isSetup = true ∧ e'.setups = e.setups + 1) := by
  refine ⟨fun es cfgs => rfl, fun s e cfg => ⟨rfl, rfl⟩, ?_, ?_⟩
  · intro s hle
    dsimp only [SwitchingEntity.setup]
    split_ifs with hpos
    · exact absurd hpos (by omega)
    · exact ⟨rfl, rfl, rfl⟩
  · intro s i e hi hget
    dsimp only [SwitchingEntity.switchToIndex]
    by_cases h1 : (0 : Int) ≤ s.activeEntityIndex
    · rw [if_pos h1, if_pos hi]
      refine ⟨rfl, ?_⟩
      dsimp only
      rw [updateAt_get?_self]
      by_cases hij : s.activeEntityIndex.toNat = i.toNat
      · rw [hij, updateAt_get?_self, hget]
        exact ⟨_, rfl, rfl, rfl⟩
      · rw [updateAt_get?_other _ _ _ _ hij, hget]
        exact ⟨_, rfl, rfl, rfl⟩
    · rw [if_neg h1, if_pos hi]
      refine ⟨rfl, ?_⟩
      dsimp only
      rw [updateAt_get?_self, hget]
      exact ⟨_, rfl, rfl, rfl⟩

/-- C10 witness: the parts with hypotheses applied to the concrete
two-child switching entity: its `setup` activates nothing, and
`switchToIndex 1` sets child 1 up. -/
theorem C10_switching_witness :
    c10Sw.activeEntityIndex ≤ 0 ∧
    ((c10Sw.setup).activeEntityIndex = c10Sw.activeEntityIndex ∧
      (c10Sw.setup).entities = c10Sw.entities ∧
      (c10Sw.setup).isSetup = true) ∧
    (0 : Int) ≤ 1 ∧
    c10Sw.entities.get? (1 : Int).toNat = some {} ∧
    ((c10Sw.switchToIndex 1).activeEntityIndex = 1 ∧
      ∃ e', (c10Sw.switchToIndex 1).entities.get? (1 : Int).toNat = some e' ∧
        e'.isSetup = true ∧ e'.setups = SimEntity.setups {} + 1) :=
  ⟨by decide, C10_switching_setup_inert.2.2.1 c10Sw (by decide),
   by decide, by decide,
   C10_switching_setup_inert.2.2.2 c10Sw 1 {} (by decide) (by decide)⟩

/-! ## C9: `FunctionalEntity` child attachment -/

/--
C9 (code-bug evidence): constructing a `FunctionalEntity` with one child
entity stores `null` in the entity slot and the child itself in the
config-override slot (`addEntity(null, childEntity)` — swapped arguments),
so the child is never attached as a parallel child; the subsequent `setup`
dereferences the `null` entry and fails instead of setting the child up.
-/
theorem C9_children_never_attached :
    Option.map ParallelEntity.entities
      (FunctionalEntity.construct [c9Child]).toOption = some [none] ∧
    Option.map ParallelEntity.entityConfigs
      (FunctionalEntity.construct [c9Child]).toOption
      = some [some (.entityVal c9Child)] ∧
    (FunctionalEntity.construct [c9Child]).bind ParallelEntity.setup
      = .error "TypeError: cannot read isSetup of null" := by
  refine ⟨rfl, rfl, rfl⟩

/-! ## C5: `DeflatingCompositeEntity` splices completed children -/

/-- Closed form of the splice loop: the survivors are the updated children
whose transition stayed falsy, in order; the removed ones are the updated
children whose transition turned truthy, each torn down if it was set
up. -/
theorem dceUpdateChildren_spec (es : List SimEntity) :
    dceUpdateChildren es =
      ((es.map SimEntity.update).filter
          (fun e => !(truthyOpt e.requestedTransition)),
       ((es.map SimEntity.update).filter
          (fun e => truthyOpt e.requestedTransition)).map
          (fun e => if e.isSetup then e.teardown else e)) := by
  induction es with
  | nil => rfl
  | cons e es ih =>
    simp only [dceUpdateChildren, List.map_cons, List.filter_cons, ih]
    by_cases h : truthyOpt (SimEntity.update e).requestedTransition = true
    · simp [h]
    · simp [h]

/--
C5: in a `DeflatingCompositeEntity` update pass, every child whose
`requestedTransition` becomes truthy is spliced out of the live list (the
surviving list is exactly the updated children whose transition stayed
falsy, so the length shrinks by the number of completers), every spliced
child was torn down, and — with `autoTransition` — the composite's own
`requestedTransition` becomes `true` exactly when the list becomes empty.
-/
theorem C5_deflating_splices (d : DeflatingCompositeEntity)
    (hauto : d.autoTransition = true)
    (hrt : d.requestedTransition = none) :
    (d.update).entities =
      (d.entities.map SimEntity.update).filter
        (fun e => !(truthyOpt e.requestedTransition)) ∧
    (∀ e ∈ (dceUpdateChildren d.entities).2, e.isSetup = false) ∧
    ((d.update).requestedTransition = some (.bool true) ↔
      (d.update).entities = []) := by
  refine ⟨?_, ?_, ?_⟩
  · show (dceUpdateChildren d.entities).1 = _
    rw [dceUpdateChildren_spec]
  · rw [dceUpdateChildren_spec]
    intro e he
    simp only [List.mem_map] at he
    obtain ⟨a, _, rfl⟩ := he
    by_cases ha : a.isSetup = true
    · simp [ha, SimEntity.teardown]
    · rw [if_neg ha]
      exact Bool.eq_false_iff.mpr ha
  · dsimp only [DeflatingCompositeEntity.update]
    rw [hauto, hrt]
    by_cases hnil : (dceUpdateChildren d.entities).1 = []
    · simp [hnil]
    · have hlen : ((dceUpdateChildren d.entities).1.length == 0) = false := by
        simp [List.length_eq_zero, hnil]
      simp [hlen, hnil]

/-- C5 witness: the theorem applied to the set-up `{A, B}` composite where
A completes on the first update and B on the second: after one update the
live list is `[B]` (length 1), after the second it is empty and the parent
has completed. -/
theorem C5_deflating_witness :
    (c5Dce.setup).autoTransition = true ∧
    (c5Dce.setup).requestedTransition = none ∧
    (((c5Dce.setup).update).entities =
        ((c5Dce.setup).entities.map SimEntity.update).filter
          (fun e => !(truthyOpt e.requestedTransition)) ∧
      (∀ e ∈ (dceUpdateChildren (c5Dce.setup).entities).2, e.isSetup = false) ∧
      (((c5Dce.setup).update).requestedTransition = some (.bool true) ↔
        ((c5Dce.setup).update).entities = [])) ∧
    ((c5Dce.setup).update).entities.length = 1 ∧
    (((c5Dce.setup).update).update).entities = [] ∧
    truthyOpt ((((c5Dce.setup).update).update).requestedTransition) = true :=
  ⟨rfl, rfl, C5_deflating_splices (c5Dce.setup) rfl rfl,
   by decide, by decide, by decide⟩

/-! ## C4: `ParallelEntity` update pass -/

/-- Pointwise behaviour of the `ParallelEntity` child-update loop: with
all child slots non-null and index-aligned flags, the loop succeeds,
preserves both lengths, turns every active child that completes into its
updated-then-torn-down form with a cleared flag, keeps every active child
that does not complete updated and still active, and leaves inactive
entries untouched. -/
theorem peUpdateChildren_pointwise (es : List (Option SimEntity)) :
    ∀ as : List Bool, (∀ x ∈ es, x.isSome) → as.length = es.length →
      ∃ es' as', peUpdateChildren es as = .ok (es', as') ∧
        es'.length = es.length ∧ as'.length = as.length ∧
        (∀ i e, es.get? i = some (some e) → as.get? i = some true →
          (truthyOpt (e.update).requestedTransition = true →
              es'.get? i = some (some (e.update).teardown) ∧
              as'.get? i = some false) ∧
          (truthyOpt (e.update).requestedTransition = false →
              es'.get? i = some (some e.update) ∧ as'.get? i = some true)) ∧
        (∀ i x, es.get? i = some x → as.get? i = some false →
          es'.get? i = some x ∧ as'.get? i = some false) := by
  induction es with
  | nil =>
    intro as hsome hlen
    have hnil : as = [] := List.length_eq_zero.mp hlen
    subst hnil
    exact ⟨[], [], rfl, rfl, rfl,
      fun i e hge => by simp at hge, fun i x hge => by simp at hge⟩
  | cons x es ih =>
    intro as hsome hlen
    cases x with
    | none => exact absurd (hsome none (by simp)) (by simp)
    | some e =>
      cases as with
      | nil => simp at hlen
      | cons a as =>
        have hsome' : ∀ y ∈ es, y.isSome := fun y hy => hsome y (by simp [hy])
        have hlen' : as.length = es.length := by simpa using hlen
        obtain ⟨es', as', heq, hlene, hlena, hact, hinact⟩ :=
          ih as hsome' hlen'
        by_cases ha : a = true
        · subst ha
          by_cases ht : truthyOpt (e.update).requestedTransition = true
          · refine ⟨some (e.update).teardown :: es', false :: as', ?_,
              by simp [hlene], by simp [hlena], ?_, ?_⟩
            · simp [peUpdateChildren, ht, heq, Except.map]
            · intro i e0 hge hga
              cases i with
              | zero =>
                simp only [List.get?_cons_zero, Option.some.injEq] at hge
                cases hge
                exact ⟨fun _ => ⟨rfl, rfl⟩, fun hf => absurd ht (by simp [hf])⟩
              | succ n =>
                simp only [List.get?_cons_succ] at hge hga ⊢
                exact hact n e0 hge hga
            · intro i x hge hga
              cases i with
              | zero => simp at hga
              | succ n =>
                simp only [List.get?_cons_succ] at hge hga ⊢
                exact hinact n x hge hga
          · have ht' : truthyOpt (e.update).requestedTransition = false :=
              Bool.eq_false_iff.mpr ht
            refine ⟨some e.update :: es', true :: as', ?_,
              by simp [hlene], by simp [hlena], ?_, ?_⟩
            · simp [peUpdateChildren, ht', heq, Except.map]
            · intro i e0 hge hga
              cases i with
              | zero =>
                simp only [List.get?_cons_zero, Option.some.injEq] at hge
                cases hge
                exact ⟨fun htr => absurd htr ht, fun _ => ⟨rfl, rfl⟩⟩
              | succ n =>
                simp only [List.get?_cons_succ] at hge hga ⊢
                exact hact n e0 hge hga
            · intro i x hge hga
              cases i with
              | zero => simp at hga
              | succ n =>
                simp only [List.get?_cons_succ] at hge hga ⊢
                exact hinact n x hge hga
        · have ha' : a = false := Bool.eq_false_iff.mpr ha
          subst ha'
          refine ⟨some e :: es', false :: as', ?_,
            by simp [hlene], by simp [hlena], ?_, ?_⟩
          · simp [peUpdateChildren, heq, Except.map]
          · intro i e0 hge hga
            cases i with
            | zero => simp at hga
            | succ n =>
              simp only [List.get?_cons_succ] at hge hga ⊢
              exact hact n e0 hge hga
          · intro i x hge hga
            cases i with
            | zero =>
              simp only [List.get?_cons_zero, Option.some.injEq] at hge
              cases hge
              exact ⟨rfl, rfl⟩
            | succ n =>
              simp only [List.get?_cons_succ] at hge hga ⊢
              exact hinact n x hge hga

/--
C4: for a `ParallelEntity` with non-null children and index-aligned
active flags, a fresh `requestedTransition` and `autoTransition` on, one
update pass succeeds and: the child and flag lists keep their lengths (a
completed child stays in the list); every active child whose transition
turns truthy after its own update is immediately torn down and marked
inactive, every other active child stays active with its update applied,
and inactive entries are untouched; and the composite's own
`requestedTransition` becomes `true` exactly when no child remains
active.
-/
theorem C4_parallel_update (pe : ParallelEntity)
    (hsome : ∀ x ∈ pe.entities, x.isSome)
    (hlen : pe.entityIsActive.length = pe.entities.length)
    (hauto : pe.autoTransition = true)
    (hrt : pe.requestedTransition = none) :
    ∃ pe', pe.update = .ok pe' ∧
      pe'.entities.length = pe.entities.length ∧
      pe'.entityIsActive.length = pe.entityIsActive.length ∧
      (∀ i e, pe.entities.get? i = some (some e) →
        pe.entityIsActive.get? i = some true →
        (truthyOpt (e.update).requestedTransition = true →
            pe'.entities.get? i = some (some (e.update).teardown) ∧
            pe'.entityIsActive.get? i = some false) ∧
        (truthyOpt (e.update).requestedTransition = false →
            pe'.entities.get? i = some (some e.update) ∧
            pe'.entityIsActive.get? i = some true)) ∧
      (∀ i x, pe.entities.get? i = some x →
        pe.entityIsActive.get? i = some false →
        pe'.entities.get? i = some x ∧
        pe'.entityIsActive.get? i = some false) ∧
      (pe'.requestedTransition = some (.bool true) ↔
        pe'.entityIsActive.any (fun b => b) = false) := by
  obtain ⟨es', as', heq, hlene, hlena, hact, hinact⟩ :=
    peUpdateChildren_pointwise pe.entities pe.entityIsActive hsome hlen
  refine ⟨{ pe with entities := es', entityIsActive := as', requestedTransition := (if pe.autoTransition && !(as'.any (fun b => b)) then some (.bool true) else pe.requestedTransition) }, ?_, ?_, ?_, ?_, ?_, ?_⟩
  · show (peUpdateChildren pe.entities pe.entityIsActive).map _ = _
    rw [heq]
    rfl
  · simpa using hlene
  · simpa using hlena
  · simpa using hact
  · simpa using hinact
  · dsimp only
    rw [hauto, hrt]
    by_cases hany : as'.any (fun b => b) = true
    · simp [hany]
    · simp [Bool.eq_false_iff.mpr hany]

/-- C4 witness: the theorem applied to the concrete 3-child composite
(children 0 and 2 complete on the first update, child 1 on the second),
plus the §8 scenario read off the set-up run: after update 1 the flags are
`[false, true, false]` with the parent not yet complete, after update 2 no
child is active and the parent has completed. -/
theorem C4_parallel_witness :
    (∀ x ∈ c4Par.entities, x.isSome) ∧
    c4Par.entityIsActive.length = c4Par.entities.length ∧
    c4Par.autoTransition = true ∧
    c4Par.requestedTransition = none ∧
    (∃ pe', c4Par.update = .ok pe' ∧
      pe'.entities.length = c4Par.entities.length ∧
      (pe'.requestedTransition = some (.bool true) ↔
        pe'.entityIsActive.any (fun b => b) = false)) ∧
    Option.map ParallelEntity.entityIsActive
      ((c4Par.setup).bind ParallelEntity.update).toOption
      = some [false, true, false] ∧
    Option.map (fun p => truthyOpt p.requestedTransition)
      ((c4Par.setup).bind ParallelEntity.update).toOption = some false ∧
    Option.map ParallelEntity.entityIsActive
      (((c4Par.setup).bind ParallelEntity.update).bind
        ParallelEntity.update).toOption = some [false, false, false] ∧
    Option.map (fun p => truthyOpt p.requestedTransition)
      (((c4Par.setup).bind ParallelEntity.update).bind
        ParallelEntity.update).toOption = some true :=
  ⟨by decide, rfl, rfl, rfl,
   match C4_parallel_update c4Par (by decide) rfl rfl rfl with
   | ⟨pe', h1, h2, _, _, _, h6⟩ => ⟨pe', h1, h2, h6⟩,
   by decide, by decide, by decide, by decide⟩

/-! ## C6: `EntitySequence` lifecycle trace -/

/-- Abbreviation for the statements below: overwrite the child at the
current index. -/
def seqWriteCurrent (s : EntitySequence) (c : SimEntity) : EntitySequence :=
  { s with entities := updateAt s.entities s.currentEntityIndex (fun _ => c) }

theorem updateAt_of_get? (l : List α) (i : Nat) (x : α)
    (h : l.get? i = some x) : updateAt l i (fun _ => x) = l := by
  induction l generalizing i with
  | nil => rfl
  | cons y ys ih =>
    cases i with
    | zero =>
      simp only [List.get?_cons_zero, Option.some.injEq] at h
      simp [updateAt, h]
    | succ n =>
      simp only [List.get?_cons_succ] at h
      simp [updateAt, ih n h]

theorem runSeqUpdates_add (a b : Nat) (s : EntitySequence) :
    runSeqUpdates (a + b) s = runSeqUpdates b (runSeqUpdates a s) := by
  induction a generalizing s with
  | zero => rw [Nat.zero_add]; rfl
  | succ n ih =>
    rw [Nat.succ_add]
    show runSeqUpdates (n + b) s.update = _
    exact ih s.update

/-- One idle update: when the current child's script head is `none`, the
update only consumes that entry (the child's transition stays falsy and no
advance happens). -/
theorem seqUpdate_idle (s : EntitySequence) (e : SimEntity)
    (tail : List (Option TransitionValue))
    (hlast : s.lastRequestedTransition = none)
    (hget : s.entities.get? s.currentEntityIndex = some e)
    (hscript : e.script = none :: tail) :
    s.update =
      seqWriteCurrent s { e with requestedTransition := none,
                                 script := tail } := by
  have hupd : SimEntity.update e =
      { e with requestedTransition := none, script := tail } := by
    unfold SimEntity.update
    rw [hscript]
  have hlt : s.currentEntityIndex < s.entities.length := by
    rcases List.get?_eq_some.mp hget with ⟨h, _⟩
    exact h
  have hcongr := updateAt_congr s.entities s.currentEntityIndex
    SimEntity.update
    (fun _ => { e with requestedTransition := none, script := tail }) e hget
    hupd
  have hguard : ¬ (truthyOpt s.lastRequestedTransition = true) := by
    rw [hlast]
    decide
  unfold EntitySequence.update
  rw [if_neg hguard, if_neg (by omega :
    ¬ (s.entities.length ≤ s.currentEntityIndex))]
  dsimp only
  rw [hcongr, updateAt_get?_self, hget]
  rfl

/-- The completing update: when the current child's script head is a
truthy transition, the update stores it on the child and advances. -/
theorem seqUpdate_completes (s : EntitySequence) (e : SimEntity)
    (t : TransitionValue)
    (hlast : s.lastRequestedTransition = none)
    (hget : s.entities.get? s.currentEntityIndex = some e)
    (hscript : e.script = [some t])
    (ht : t.truthy = true) :
    s.update =
      (seqWriteCurrent s { e with requestedTransition := some t,
                                  script := [] }).advance (some t) := by
  have hupd : SimEntity.update e =
      { e with requestedTransition := some t, script := [] } := by
    unfold SimEntity.update
    rw [hscript]
  have hlt : s.currentEntityIndex < s.entities.length := by
    rcases List.get?_eq_some.mp hget with ⟨h, _⟩
    exact h
  have hcongr := updateAt_congr s.entities s.currentEntityIndex
    SimEntity.update
    (fun _ => { e with requestedTransition := some t, script := [] }) e hget
    hupd
  have hguard : ¬ (truthyOpt s.lastRequestedTransition = true) := by
    rw [hlast]
    decide
  unfold EntitySequence.update
  rw [if_neg hguard, if_neg (by omega :
    ¬ (s.entities.length ≤ s.currentEntityIndex))]
  dsimp only
  rw [hcongr, updateAt_get?_self, hget]
  dsimp only [Option.map]
  split_ifs with hcond
  · rfl
  · exact absurd ht hcond

/-- A full phase: `k` idle updates followed by the completing one, ending
in an `_advance` with the child's transition recorded on the child. -/
theorem runSeq_complete_phase (k : Nat) :
    ∀ (s : EntitySequence) (e : SimEntity) (t : TransitionValue),
      s.lastRequestedTransition = none →
      s.entities.get? s.currentEntityIndex = some e →
      e.script = List.replicate k none ++ [some t] →
      t.truthy = true →
      runSeqUpdates (k + 1) s =
        (seqWriteCurrent s { e with requestedTransition := some t,
                                    script := [] }).advance (some t) := by
  induction k with
  | zero =>
    intro s e t hlast hget hscript ht
    exact seqUpdate_completes s e t hlast hget hscript ht
  | succ n ih =>
    intro s e t hlast hget hscript ht
    show runSeqUpdates (n + 1) s.update = _
    have hstep : s.update =
        seqWriteCurrent s
          { e with requestedTransition := none,
                   script := List.replicate n none ++ [some t] } :=
      seqUpdate_idle s e (List.replicate n none ++ [some t]) hlast hget
        (by rw [hscript]; rfl)
    rw [hstep]
    have hget1 : (seqWriteCurrent s
        { e with requestedTransition := none,
                 script := List.replicate n none ++ [some t] }).entities.get?
          s.currentEntityIndex =
        some { e with requestedTransition := none,
                      script := List.replicate n none ++ [some t] } := by
      dsimp only [seqWriteCurrent]
      rw [updateAt_get?_self, hget]
      rfl
    rw [ih (seqWriteCurrent s
        { e with requestedTransition := none,
                 script := List.replicate n none ++ [some t] })
      { e with requestedTransition := none,
               script := List.replicate n none ++ [some t] }
      t hlast hget1 rfl ht]
    congr 1
    dsimp only [seqWriteCurrent]
    rw [updateAt_updateAt]

/--
C6: for an `EntitySequence` over 3 non-looping scripted entities that
complete in index order (child `i` after `k_i` idle updates, with truthy
transition `t_i`), the run trace is: after phase 0 child 0 has exactly one
setup and one teardown and child 1 has just received its single setup
(child 2 untouched); after phase 1 the same holds one index later; at the
end every child has received exactly one `setup` and one `teardown`, in
index order, and the sequence's own `requestedTransition` equals the last
child's transition `t2`.  With `loop := true`, the last child's completion
instead tears it down and sets child 0 up a second time (`setups = 2`,
index back to 0) without completing the sequence.
-/
theorem C6_sequence_trace (k0 k1 k2 : Nat) (t0 t1 t2 : TransitionValue)
    (h0 : t0.truthy = true) (h1 : t1.truthy = true) (h2 : t2.truthy = true) :
    (runSeqUpdates (k0 + 1) ((c6Seq k0 k1 k2 t0 t1 t2 false).setup) =
      { entities := [⟨false, some t0, [], none, 1, 1⟩,
                     ⟨true, none, List.replicate k1 none ++ [some t1], none, 1, 0⟩,
                     mkScripted k2 t2],
        loop := false, currentEntityIndex := 1, requestedTransition := none,
        lastRequestedTransition := none, isSetup := true }) ∧
    (runSeqUpdates ((k0 + 1) + (k1 + 1))
        ((c6Seq k0 k1 k2 t0 t1 t2 false).setup) =
      { entities := [⟨false, some t0, [], none, 1, 1⟩,
                     ⟨false, some t1, [], none, 1, 1⟩,
                     ⟨true, none, List.replicate k2 none ++ [some t2], none, 1, 0⟩],
        loop := false, currentEntityIndex := 2, requestedTransition := none,
        lastRequestedTransition := none, isSetup := true }) ∧
    (runSeqUpdates ((k0 + 1) + ((k1 + 1) + (k2 + 1)))
        ((c6Seq k0 k1 k2 t0 t1 t2 false).setup) =
      { entities := [⟨false, some t0, [], none, 1, 1⟩,
                     ⟨false, some t1, [], none, 1, 1⟩,
                     ⟨false, some t2, [], none, 1, 1⟩],
        loop := false, currentEntityIndex := 2, requestedTransition := some t2,
        lastRequestedTransition := none, isSetup := true }) ∧
    (runSeqUpdates ((k0 + 1) + ((k1 + 1) + (k2 + 1)))
        ((c6Seq k0 k1 k2 t0 t1 t2 true).setup) =
      { entities := [⟨true, none, [], none, 2, 1⟩,
                     ⟨false, some t1, [], none, 1, 1⟩,
                     ⟨false, some t2, [], none, 1, 1⟩],
        loop := true, currentEntityIndex := 0, requestedTransition := none,
        lastRequestedTransition := none, isSetup := true }) := by
  have hph0 : ∀ l : Bool,
      runSeqUpdates (k0 + 1) ((c6Seq k0 k1 k2 t0 t1 t2 l).setup) =
      { entities := [⟨false, some t0, [], none, 1, 1⟩,
                     ⟨true, none, List.replicate k1 none ++ [some t1], none, 1, 0⟩,
                     mkScripted k2 t2],
        loop := l, currentEntityIndex := 1, requestedTransition := none,
        lastRequestedTransition := none, isSetup := true } := by
    intro l
    rw [runSeq_complete_phase k0 ((c6Seq k0 k1 k2 t0 t1 t2 l).setup)
      ((mkScripted k0 t0).setup) t0 rfl rfl rfl h0]
    rfl
  have hph01 : ∀ l : Bool,
      runSeqUpdates ((k0 + 1) + (k1 + 1)) ((c6Seq k0 k1 k2 t0 t1 t2 l).setup) =
      { entities := [⟨false, some t0, [], none, 1, 1⟩,
                     ⟨false, some t1, [], none, 1, 1⟩,
                     ⟨true, none, List.replicate k2 none ++ [some t2], none, 1, 0⟩],
        loop := l, currentEntityIndex := 2, requestedTransition := none,
        lastRequestedTransition := none, isSetup := true } := by
    intro l
    rw [runSeqUpdates_add, hph0 l]
    rw [runSeq_complete_phase k1
      ({ entities := [⟨false, some t0, [], none, 1, 1⟩,
                      ⟨true, none, List.replicate k1 none ++ [some t1], none, 1, 0⟩,
                      mkScripted k2 t2],
         loop := l, currentEntityIndex := 1, requestedTransition := none,
         lastRequestedTransition := none, isSetup := true } : EntitySequence)
      ⟨true, none, List.replicate k1 none ++ [some t1], none, 1, 0⟩ t1
      rfl rfl rfl h1]
    rfl
  have hph012 : ∀ l : Bool,
      runSeqUpdates ((k0 + 1) + ((k1 + 1) + (k2 + 1)))
        ((c6Seq k0 k1 k2 t0 t1 t2 l).setup) =
      runSeqUpdates (k2 + 1)
        ({ entities := [⟨false, some t0, [], none, 1, 1⟩,
                        ⟨false, some t1, [], none, 1, 1⟩,
                        ⟨true, none, List.replicate k2 none ++ [some t2], none, 1, 0⟩],
           loop := l, currentEntityIndex := 2, requestedTransition := none,
           lastRequestedTransition := none, isSetup := true } : EntitySequence) := by
    intro l
    rw [runSeqUpdates_add (k0 + 1) ((k1 + 1) + (k2 + 1)),
        runSeqUpdates_add (k1 + 1) (k2 + 1),
        ← runSeqUpdates_add (k0 + 1) (k1 + 1), hph01 l]
  refine ⟨hph0 false, hph01 false, ?_, ?_⟩
  · rw [hph012 false]
    rw [runSeq_complete_phase k2
      ({ entities := [⟨false, some t0, [], none, 1, 1⟩,
                      ⟨false, some t1, [], none, 1, 1⟩,
                      ⟨true, none, List.replicate k2 none ++ [some t2], none, 1, 0⟩],
         loop := false, currentEntityIndex := 2, requestedTransition := none,
         lastRequestedTransition := none, isSetup := true } : EntitySequence)
      ⟨true, none, List.replicate k2 none ++ [some t2], none, 1, 0⟩ t2
      rfl rfl rfl h2]
    rfl
  · rw [hph012 true]
    rw [runSeq_complete_phase k2
      ({ entities := [⟨false, some t0, [], none, 1, 1⟩,
                      ⟨false, some t1, [], none, 1, 1⟩,
                      ⟨true, none, List.replicate k2 none ++ [some t2], none, 1, 0⟩],
         loop := true, currentEntityIndex := 2, requestedTransition := none,
         lastRequestedTransition := none, isSetup := true } : EntitySequence)
      ⟨true, none, List.replicate k2 none ++ [some t2], none, 1, 0⟩ t2
      rfl rfl rfl h2]
    rfl

/-- C6 witness: the trace theorem applied at `k = 0` and transitions
`"a"`, `"b"`, `"c"`. -/
theorem C6_sequence_witness :
    (TransitionValue.str "a").truthy = true ∧
    (TransitionValue.str "b").truthy = true ∧
    (TransitionValue.str "c").truthy = true ∧
    runSeqUpdates 3
        ((c6Seq 0 0 0 (.str "a") (.str "b") (.str "c") false).setup) =
      { entities := [⟨false, some (.str "a"), [], none, 1, 1⟩,
                     ⟨false, some (.str "b"), [], none, 1, 1⟩,
                     ⟨false, some (.str "c"), [], none, 1, 1⟩],
        loop := false, currentEntityIndex := 2,
        requestedTransition := some (.str "c"),
        lastRequestedTransition := none, isSetup := true } ∧
    runSeqUpdates 3
        ((c6Seq 0 0 0 (.str "a") (.str "b") (.str "c") true).setup) =
      { entities := [⟨true, none, [], none, 2, 1⟩,
                     ⟨false, some (.str "b"), [], none, 1, 1⟩,
                     ⟨false, some (.str "c"), [], none, 1, 1⟩],
        loop := true, currentEntityIndex := 0, requestedTransition := none,
        lastRequestedTransition := none, isSetup := true } :=
  ⟨by decide, by decide, by decide,
   (C6_sequence_trace 0 0 0 (.str "a") (.str "b") (.str "c")
     (by decide) (by decide) (by decide)).2.2.1,
   (C6_sequence_trace 0 0 0 (.str "a") (.str "b") (.str "c")
     (by decide) (by decide) (by decide)).2.2.2⟩
